import Mathlib

/-!
Shallow embedding of the wadt3rr/sso authentication service (Go) into Lean 4.

Sources embedded:
- `internal/services/auth/auth.go` — the Auth service (`RegisterNewUser`, `Login`,
  `UpdateRole`, `GetUserRole`, `ListUsers`) and the gRPC transport adapter (`serverAPI`).
- `internal/storage/postgres` (unnamed source file) — the postgres storage layer,
  modelled as pure state transformers over a list of user rows.

Collaborator calls (bcrypt, storage, token issuer) are passed in as oracle functions,
and the service/transport functions additionally return a trace of the collaborator
calls they performed, so that claims about call order and about "storage is never
touched" can be stated and proved.

Go error values (`errors.New` sentinels, `fmt.Errorf` with and without `%w`, and
`errors.Is` classification) are modelled by the inductive `GoErr` and the function
`errorsIs` below.
-/

set_option autoImplicit false

/-- Go error values as used in this repository: each `errors.New` sentinel is its own
constructor (two sentinels with the same message are still distinct values in Go),
`wrap` is `fmt.Errorf` with a `%w` verb (preserves the wrapped error for `errors.Is`),
`fmtMsg` is `fmt.Errorf` without `%w` (a plain message, classifiable by no sentinel),
and `otherErr` stands for an opaque collaborator error (e.g. a database failure). -/
inductive GoErr where
  /-- `storage.ErrUserNotFound` -/
  | errUserNotFoundStorage
  /-- `storage.ErrUserExists` -/
  | errUserExistsStorage
  /-- `storage.ErrAppNotFound` -/
  | errAppNotFoundStorage
  /-- `auth.ErrUserNotFound` -/
  | errUserNotFoundAuth
  /-- `auth.ErrInvalidCredentials` -/
  | errInvalidCredentialsAuth
  /-- `auth.ErrInvalidRole` -/
  | errInvalidRoleAuth
  /-- an opaque error from a collaborator -/
  | otherErr (s : String)
  /-- `fmt.Errorf ++ %s: %w` — wraps with operation context, unwrappable -/
  | wrap (op : String) (e : GoErr)
  /-- `fmt.Errorf` without a wrap verb — plain message, not unwrappable -/
  | fmtMsg (s : String)
deriving DecidableEq, Repr

/-- Go's `errors.Is err target`: true when `err` equals `target` or some error in
`err`'s unwrap chain equals `target` (none of the repository's error types define
a custom `Is` method). -/
def errorsIs (err target : GoErr) : Bool :=
  err = target ||
    match err with
    | .wrap _ e => errorsIs e target
    | _ => false

/-- `models.User` — the user row: id, email, pass_hash (opaque; modelled as a `Nat`),
role. -/
structure models.User where
  ID : Int
  Email : String
  PassHash : Nat
  Role : String
deriving DecidableEq, Repr

/-- `models.App` — the application row: id, name, secret. -/
structure models.App where
  ID : Int
  Name : String
  Secret : String
deriving DecidableEq, Repr

/-- Collaborator-call events recorded by the embedded service and transport
functions, in the order the Go code performs them. -/
inductive Event where
  /-- `bcrypt.GenerateFromPassword` was invoked on this password -/
  | hashPassword (pass : String)
  /-- `usrSaver.SaveUser` was invoked with this email and role -/
  | saveUser (email : String) (role : String)
  /-- `usrSaver.UpdateRole` was invoked with this user id and role -/
  | updRole (uid : Int) (role : String)
  /-- the transport handler invoked the Auth service operation of this name -/
  | callService (name : String)
deriving DecidableEq, Repr

/-! ## Auth service (`internal/services/auth/auth.go`) -/

/-- The `validRoles` map literal in `Auth.RegisterNewUser`: Go map lookup returns the
zero value `false` for missing keys, and the literal maps `admin` to `false`. -/
def registerValidRoles (role : String) : Bool :=
  if role = "user" then true
  else if role = "organizer" then true
  else if role = "admin" then false
  else false

/-- The save step shared by both role branches of `Auth.RegisterNewUser`:
call `usrSaver.SaveUser` and wrap any error with the operation name. -/
def registerSave (op : String) (saveUser : String → Nat → String → Except GoErr Int)
    (email : String) (passHash : Nat) (pass role : String) :
    List Event × Except GoErr Int :=
  match saveUser email passHash role with
  | .error e => ([.hashPassword pass, .saveUser email role], .error (.wrap op e))
  | .ok id => ([.hashPassword pass, .saveUser email role], .ok id)

/-- `Auth.RegisterNewUser`: hash the password with bcrypt, then normalize/validate the
role (empty string becomes `user`; otherwise the `validRoles` map must say true),
then call `usrSaver.SaveUser`. The bcrypt call and the storage call are oracles;
the returned trace records the collaborator calls in source order. -/
def auth.RegisterNewUser (bcryptGenerate : String → Except GoErr Nat)
    (saveUser : String → Nat → String → Except GoErr Int)
    (email pass role : String) : List Event × Except GoErr Int :=
  let op := "Auth.RegisterNewUser"
  match bcryptGenerate pass with
  | .error e => ([.hashPassword pass], .error (.wrap op e))
  | .ok passHash =>
    if role = "" then
      registerSave op saveUser email passHash pass "user"
    else
      if !(registerValidRoles role) then
        ([.hashPassword pass], .error (.wrap op GoErr.errInvalidRoleAuth))
      else
        registerSave op saveUser email passHash pass role

/-- `Auth.Login`: look the user up by email (a `storage.ErrUserNotFound` is translated
to `auth.ErrUserNotFound`; other lookup errors are wrapped and passed through), verify
the password with bcrypt (`bcryptCompare` returns whether the hash matches; a mismatch
becomes `auth.ErrInvalidCredentials`), look up the app, and issue the token. -/
def auth.Login (userLookup : String → Except GoErr models.User)
    (bcryptCompare : Nat → String → Bool)
    (appLookup : Int → Except GoErr models.App)
    (newToken : models.User → models.App → Nat → Except GoErr String)
    (tokenTTL : Nat) (email password : String) (appID : Int) : Except GoErr String :=
  let op := "Auth.Login"
  match userLookup email with
  | .error e =>
    if errorsIs e GoErr.errUserNotFoundStorage then
      .error (.wrap op GoErr.errUserNotFoundAuth)
    else
      .error (.wrap op e)
  | .ok user =>
    if !(bcryptCompare user.PassHash password) then
      .error (.wrap op GoErr.errInvalidCredentialsAuth)
    else
      match appLookup appID with
      | .error e => .error (.wrap op e)
      | .ok app =>
        match newToken user app tokenTTL with
        | .error e => .error (.wrap op e)
        | .ok token => .ok token

/-- `Auth.UpdateRole` (op name `Auth.AssignRole` in the source): reject any role
outside the three-element set with a plain formatted error (no `%w` verb, so it wraps
no sentinel), otherwise call `usrSaver.UpdateRole`, translating a storage not-found
into `auth.ErrUserNotFound`. -/
def auth.UpdateRole (storageUpdRole : Int → String → Except GoErr Unit)
    (userID : Int) (role : String) : List Event × Except GoErr Unit :=
  let op := "Auth.AssignRole"
  if role ≠ "user" ∧ role ≠ "organizer" ∧ role ≠ "admin" then
    ([], .error (.fmtMsg (op ++ ": invalid role: " ++ role)))
  else
    match storageUpdRole userID role with
    | .error e =>
      if errorsIs e GoErr.errUserNotFoundStorage then
        ([.updRole userID role], .error (.wrap op GoErr.errUserNotFoundAuth))
      else
        ([.updRole userID role], .error (.wrap op e))
    | .ok _ => ([.updRole userID role], .ok ())

/-- `Auth.GetUserRole` (op name `Auth.GetRole` in the source): fetch the role from
storage, translating a storage not-found into `auth.ErrUserNotFound`. -/
def auth.GetUserRole (storageGetRole : Int → Except GoErr String) (userID : Int) :
    Except GoErr String :=
  let op := "Auth.GetRole"
  match storageGetRole userID with
  | .error e =>
    if errorsIs e GoErr.errUserNotFoundStorage then
      .error (.wrap op GoErr.errUserNotFoundAuth)
    else
      .error (.wrap op e)
  | .ok role => .ok role

/-- `Auth.ListUsers`: pass the storage result through, wrapping errors with the
operation name. -/
def auth.ListUsers (storageList : Except GoErr (List models.User)) : Except GoErr (List models.User) :=
  let op := "Auth.ListUsers"
  match storageList with
  | .error e => .error (.wrap op e)
  | .ok users => .ok users

/-! ## Transport adapter (`serverAPI` in `internal/grpc/auth`) -/

/-- gRPC status codes used by the transport adapter. -/
inductive Code where
  | OK
  | InvalidArgument
  | NotFound
  | AlreadyExists
  | Unauthenticated
  | Internal
deriving DecidableEq, Repr

/-- A handler's outcome: a successful response value, or `status.Error code msg`. -/
inductive GrpcOut (α : Type) where
  | ok (v : α)
  | err (code : Code) (msg : String)
deriving DecidableEq, Repr

/-- The status code of a handler outcome (`OK` on success). -/
def GrpcOut.code {α : Type} : GrpcOut α → Code
  | .ok _ => .OK
  | .err c _ => c

/-- `serverAPI.Login`: validate email, password and app id before invoking the Auth
service; on a service error, map `auth.ErrInvalidCredentials` to `Unauthenticated` and
everything else to `Internal`. The trace records whether the service was invoked. -/
def serverAPI.Login (authLogin : String → String → Int → Except GoErr String)
    (email password : String) (appId : Int) : List Event × GrpcOut String :=
  if email = "" then
    ([], .err .InvalidArgument "email is required")
  else if password = "" then
    ([], .err .InvalidArgument "password is required")
  else if appId = 0 then
    ([], .err .InvalidArgument "app_id is required")
  else
    match authLogin email password appId with
    | .error e =>
      if errorsIs e GoErr.errInvalidCredentialsAuth then
        ([.callService "Login"], .err .Unauthenticated "invalid email or password")
      else
        ([.callService "Login"], .err .Internal "failed to login")
    | .ok token => ([.callService "Login"], .ok token)

/-- `serverAPI.Register`: validate email and password before invoking the Auth
service; on a service error, map `storage.ErrUserExists` to `AlreadyExists` and
everything else to `Internal`. -/
def serverAPI.Register (authRegister : String → String → String → Except GoErr Int)
    (email password role : String) : List Event × GrpcOut Int :=
  if email = "" then
    ([], .err .InvalidArgument "email is required")
  else if password = "" then
    ([], .err .InvalidArgument "password is required")
  else
    match authRegister email password role with
    | .error e =>
      if errorsIs e GoErr.errUserExistsStorage then
        ([.callService "Register"], .err .AlreadyExists "user already exists")
      else
        ([.callService "Register"], .err .Internal "failed to register")
    | .ok uid => ([.callService "Register"], .ok uid)

/-- `serverAPI.GetUserRole`: invoke the Auth service; map `auth.ErrUserNotFound` to
`NotFound` and everything else to `Internal`. -/
def serverAPI.GetUserRole (authGetRole : Int → Except GoErr String) (userId : Int) :
    List Event × GrpcOut String :=
  match authGetRole userId with
  | .error e =>
    if errorsIs e GoErr.errUserNotFoundAuth then
      ([.callService "GetUserRole"], .err .NotFound "user not found")
    else
      ([.callService "GetUserRole"], .err .Internal "failed to get user")
  | .ok role => ([.callService "GetUserRole"], .ok role)

/-- `serverAPI.UpdateRole`: invoke the Auth service; map `auth.ErrUserNotFound` to
`NotFound` and everything else to `Internal`. -/
def serverAPI.UpdateRole (authUpdRole : Int → String → Except GoErr Unit)
    (userId : Int) (role : String) : List Event × GrpcOut Unit :=
  match authUpdRole userId role with
  | .error e =>
    if errorsIs e GoErr.errUserNotFoundAuth then
      ([.callService "UpdateRole"], .err .NotFound "user not found")
    else
      ([.callService "UpdateRole"], .err .Internal "failed to update user")
  | .ok _ => ([.callService "UpdateRole"], .ok ())

/-- The outbound user record of `ListUsersResponse`: id, email and role only (the
password hash is never included). -/
structure UserDTO where
  Id : Int
  Email : String
  Role : String
deriving DecidableEq, Repr

/-- `serverAPI.ListUsers`: invoke the Auth service; on error return `Internal`; on
success append each user, in order, as an `id, email, role` record. -/
def serverAPI.ListUsers (authList : Except GoErr (List models.User)) :
    List Event × GrpcOut (List UserDTO) :=
  match authList with
  | .error _ => ([.callService "ListUsers"], .err .Internal "failed to list users")
  | .ok users =>
    ([.callService "ListUsers"],
      .ok (users.map fun u => { Id := u.ID, Email := u.Email, Role := u.Role }))

/-! ## Postgres storage layer (`internal/storage/postgres`), modelled as pure
state transformers over the list of user rows -/

/-- `storage.postgres.SaveUser`: `INSERT INTO users ... RETURNING id`; a duplicate
email violates the unique constraint (pg error 23505) and surfaces as
`storage.ErrUserExists` wrapped with the operation name; `nextID` models the id the
database assigns to the new row. -/
def postgres.SaveUser (db : List models.User) (nextID : Int) (email : String)
    (passHash : Nat) (role : String) : Except GoErr Int × List models.User :=
  let op := "storage.postgres.SaveUser"
  if db.any fun u => u.Email = email then
    (.error (.wrap op GoErr.errUserExistsStorage), db)
  else
    (.ok nextID, db ++ [{ ID := nextID, Email := email, PassHash := passHash, Role := role }])

/-- `storage.postgres.User`: `SELECT ... WHERE email = $1`; no row surfaces as
`storage.ErrUserNotFound` wrapped with the operation name. -/
def postgres.User (db : List models.User) (email : String) : Except GoErr models.User :=
  let op := "storage.postgres.User"
  match db.find? fun u => u.Email = email with
  | none => .error (.wrap op GoErr.errUserNotFoundStorage)
  | some u => .ok u

/-- The `validRoles` map literal in the postgres `Storage.UpdateRole`: all three
roles map to `true`; a missing key yields the zero value `false`. -/
def postgresValidRoles (role : String) : Bool :=
  if role = "admin" then true
  else if role = "user" then true
  else if role = "organizer" then true
  else false

/-- `storage.postgres.UpdateRole` (op name `storage.postgres.UpdateUserRole`):
re-validate the role against the closed set before executing the `UPDATE`; an invalid
role returns a plain formatted error without touching the rows; otherwise run
`UPDATE users SET role = $1 WHERE id = $2` and report `storage.ErrUserNotFound` when
zero rows were affected. -/
def postgres.UpdateRole (db : List models.User) (userID : Int) (role : String) :
    Except GoErr Unit × List models.User :=
  let op := "storage.postgres.UpdateUserRole"
  if !(postgresValidRoles role) then
    (.error (.fmtMsg (op ++ ": invalid role: " ++ role)), db)
  else
    let updated := db.map fun u => if u.ID = userID then { u with Role := role } else u
    if (db.filter fun u => u.ID = userID).length = 0 then
      (.error (.wrap op GoErr.errUserNotFoundStorage), updated)
    else
      (.ok (), updated)

/-- `storage.postgres.GetUserRole`: `SELECT role FROM users WHERE id = $1`; no row
surfaces as `storage.ErrUserNotFound` wrapped with the operation name. -/
def postgres.GetUserRole (db : List models.User) (userID : Int) : Except GoErr String :=
  let op := "storage.postgres.GetUserRole"
  match db.find? fun u => u.ID = userID with
  | none => .error (.wrap op GoErr.errUserNotFoundStorage)
  | some u => .ok u.Role

/-- `storage.postgres.ListUsers`: `SELECT id, email, pass_hash, role FROM users`,
scanning every row in order into the result slice; with no rows the loop body never
runs and the function returns a nil error and the (empty) slice. Query and scan
failures are infrastructure errors outside this pure model. -/
def postgres.ListUsers (db : List models.User) : Except GoErr (List models.User) :=
  .ok db

/-! ## Token issuer -/

/-- The claim set of an issued token. -/
structure TokenClaims where
  uid : Int
  email : String
  appID : Int
  role : String
  exp : Nat
deriving DecidableEq, Repr

/-- Modelled from the spec: the token issuer `sso/internal/lib/jwt.NewToken` is not
under src/ (only its caller `Auth.Login` is). Per spec section 4.2 the issuer builds a
claim set of subject = user ID, email, application ID, role, and expiry = now + ttl,
signed with the application's secret. Signing is abstracted away; `issueTime` and
`ttl` are in seconds. -/
def jwt.NewToken (user : models.User) (app : models.App) (issueTime ttl : Nat) : TokenClaims :=
  { uid := user.ID
    email := user.Email
    appID := app.ID
    role := user.Role
    exp := issueTime + ttl }

/-! ## Shared oracles and helper lemmas -/

/-- A bcrypt-hash oracle that always succeeds with hash value 0. -/
def hashOk : String → Except GoErr Nat := fun _ => Except.ok 0

/-- A SaveUser oracle that always succeeds with user id 1. -/
def saveOk : String → Nat → String → Except GoErr Int := fun _ _ _ => Except.ok 1

/-- A storage UpdateRole oracle that always succeeds. -/
def updOk : Int → String → Except GoErr Unit := fun _ _ => Except.ok ()

/-- An app-lookup oracle that always succeeds. -/
def appOk : Int → Except GoErr models.App :=
  fun i => Except.ok { ID := i, Name := "app", Secret := "s" }

/-- A token oracle that always succeeds with a fixed token string. -/
def tokenOk : models.User → models.App → Nat → Except GoErr String :=
  fun _ _ _ => Except.ok "token"

/-- Classification survives exact self-comparison: `errors.Is e e` holds. -/
theorem errorsIs_self (e : GoErr) : errorsIs e e = true := by
  unfold errorsIs
  simp

/-- Wrapping with operation context preserves `errors.Is` classification. -/
theorem errorsIs_wrap (op : String) (e t : GoErr) (h : errorsIs e t = true) :
    errorsIs (GoErr.wrap op e) t = true := by
  unfold errorsIs
  simp [h]

/-- The register-side `validRoles` map accepts exactly `user` and `organizer`. -/
theorem registerValidRoles_true_iff (r : String) :
    registerValidRoles r = true ↔ (r = "user" ∨ r = "organizer") := by
  unfold registerValidRoles
  split
  · simp_all
  · split
    · simp_all
    · split <;> simp_all

/-- The postgres-side `validRoles` map accepts exactly `admin`, `user` and
`organizer`. -/
theorem postgresValidRoles_true_iff (r : String) :
    postgresValidRoles r = true ↔ (r = "admin" ∨ r = "user" ∨ r = "organizer") := by
  unfold postgresValidRoles
  split
  · simp_all
  · split
    · simp_all
    · split <;> simp_all

/-! ## Claim theorems -/

/-- C2: the two role validators are distinct rules. Registration maps the empty role
to `user` (the save step receives role `user`), accepts exactly `user` and
`organizer` as non-empty values, and rejects `admin` or any other value with the
typed `ErrInvalidRole`; role assignment accepts exactly `user`, `organizer` and
`admin`, and rejects everything else with an invalid-role error. -/
theorem register_and_assign_role_policies_differ (role : String) :
    (auth.RegisterNewUser hashOk saveOk "a@x.com" "pw" "").1
      = [Event.hashPassword "pw", Event.saveUser "a@x.com" "user"]
  ∧ ((role = "user" ∨ role = "organizer") →
      (auth.RegisterNewUser hashOk saveOk "a@x.com" "pw" role).2 = Except.ok 1)
  ∧ (role ≠ "" → role ≠ "user" → role ≠ "organizer" →
      (auth.RegisterNewUser hashOk saveOk "a@x.com" "pw" role).2
        = Except.error (GoErr.wrap "Auth.RegisterNewUser" GoErr.errInvalidRoleAuth))
  ∧ ((auth.UpdateRole updOk 7 role).2 = Except.ok ()
      ↔ (role = "user" ∨ role = "organizer" ∨ role = "admin"))
  ∧ (role ≠ "user" → role ≠ "organizer" → role ≠ "admin" →
      (auth.UpdateRole updOk 7 role).2
        = Except.error (GoErr.fmtMsg ("Auth.AssignRole: invalid role: " ++ role))) := by
  refine ⟨rfl, ?_, ?_, ?_, ?_⟩
  · rintro (h | h) <;> subst h <;> rfl
  · intro h0 h1 h2
    have hv : registerValidRoles role = false := by
      simp [registerValidRoles, h1, h2]
    simp [auth.RegisterNewUser, hashOk, h0, hv]
  · constructor
    · intro h
      by_cases h1 : role = "user"
      · exact Or.inl h1
      by_cases h2 : role = "organizer"
      · exact Or.inr (Or.inl h2)
      by_cases h3 : role = "admin"
      · exact Or.inr (Or.inr h3)
      · simp [auth.UpdateRole, h1, h2, h3] at h
    · rintro (h | h | h) <;> subst h <;> rfl
  · intro h1 h2 h3
    simp [auth.UpdateRole, h1, h2, h3]

/-- C2 witness: concrete instances of the role-policy theorem — registration rejects
`superuser`, assignment accepts `admin`. -/
theorem register_and_assign_role_policies_differ_witness :
    (auth.RegisterNewUser hashOk saveOk "a@x.com" "pw" "superuser").2
      = Except.error (GoErr.wrap "Auth.RegisterNewUser" GoErr.errInvalidRoleAuth)
  ∧ (auth.UpdateRole updOk 7 "admin").2 = Except.ok () := by
  refine ⟨?_, ?_⟩
  · exact (register_and_assign_role_policies_differ "superuser").2.2.1
      (by decide) (by decide) (by decide)
  · exact (register_and_assign_role_policies_differ "admin").2.2.2.1.mpr
      (Or.inr (Or.inr rfl))

/-- C4: for every stored user and every password that does not verify against the
user's hash, Login returns exactly the wrapped `ErrInvalidCredentials` — never
`UserNotFound` and never a storage-layer error — and when the user lookup reports a
storage not-found, Login returns exactly the wrapped `ErrUserNotFound`; both
regardless of the app-lookup and token oracles. -/
theorem login_wrong_password_vs_unknown_email
    (userLookup : String → Except GoErr models.User)
    (bcryptCompare : Nat → String → Bool)
    (appLookup : Int → Except GoErr models.App)
    (newToken : models.User → models.App → Nat → Except GoErr String)
    (ttl : Nat) (email password : String) (appID : Int) :
    (∀ user, userLookup email = Except.ok user →
      bcryptCompare user.PassHash password = false →
      auth.Login userLookup bcryptCompare appLookup newToken ttl email password appID
        = Except.error (GoErr.wrap "Auth.Login" GoErr.errInvalidCredentialsAuth))
  ∧ (∀ e, userLookup email = Except.error e →
      errorsIs e GoErr.errUserNotFoundStorage = true →
      auth.Login userLookup bcryptCompare appLookup newToken ttl email password appID
        = Except.error (GoErr.wrap "Auth.Login" GoErr.errUserNotFoundAuth)) := by
  constructor
  · intro user hlook hcmp
    simp [auth.Login, hlook, hcmp]
  · intro e hlook hcls
    simp [auth.Login, hlook, hcls]

/-- C4 witness: with one stored user whose hash is 5 and a verifier that only accepts
password `pw`, logging in as that user with password `bad` yields the wrapped
`ErrInvalidCredentials`, and logging in against an empty store yields the wrapped
`ErrUserNotFound`. -/
theorem login_wrong_password_vs_unknown_email_witness :
    auth.Login (postgres.User [{ ID := 1, Email := "a@x.com", PassHash := 5, Role := "user" }])
        (fun h p => decide (h = 5) && decide (p = "pw")) appOk tokenOk 3600 "a@x.com" "bad" 1
      = Except.error (GoErr.wrap "Auth.Login" GoErr.errInvalidCredentialsAuth)
  ∧ auth.Login (postgres.User []) (fun _ _ => true) appOk tokenOk 3600 "a@x.com" "pw" 1
      = Except.error (GoErr.wrap "Auth.Login" GoErr.errUserNotFoundAuth) := by
  constructor
  · exact (login_wrong_password_vs_unknown_email
      (postgres.User [{ ID := 1, Email := "a@x.com", PassHash := 5, Role := "user" }])
      (fun h p => decide (h = 5) && decide (p = "pw")) appOk tokenOk 3600 "a@x.com" "bad" 1).1
      { ID := 1, Email := "a@x.com", PassHash := 5, Role := "user" } (by rfl) (by rfl)
  · exact (login_wrong_password_vs_unknown_email
      (postgres.User []) (fun _ _ => true) appOk tokenOk 3600 "a@x.com" "pw" 1).2
      (GoErr.wrap "storage.postgres.User" GoErr.errUserNotFoundStorage) (by rfl) (by rfl)

/-- C6: for every request with a role that is invalid for the operation, Register
performs no SaveUser call (for any bcrypt and storage oracle) and returns an error,
and UpdateRole performs no storage call at all (empty trace) and returns an error. -/
theorem invalid_role_short_circuits_storage
    (bcryptGenerate : String → Except GoErr Nat)
    (saveUser : String → Nat → String → Except GoErr Int)
    (storageUpdRole : Int → String → Except GoErr Unit)
    (email pass role : String) (userID : Int)
    (h1 : role ≠ "") (h2 : role ≠ "user") (h3 : role ≠ "organizer") :
    ((∀ e r, Event.saveUser e r ∉ (auth.RegisterNewUser bcryptGenerate saveUser email pass role).1)
      ∧ ∃ err, (auth.RegisterNewUser bcryptGenerate saveUser email pass role).2 = Except.error err)
  ∧ (role ≠ "admin" →
      (auth.UpdateRole storageUpdRole userID role).1 = []
        ∧ ∃ err, (auth.UpdateRole storageUpdRole userID role).2 = Except.error err) := by
  have hv : registerValidRoles role = false := by
    simp [registerValidRoles, h2, h3]
  constructor
  · cases hbg : bcryptGenerate pass with
    | error e =>
      refine ⟨fun e' r' => ?_, ⟨GoErr.wrap "Auth.RegisterNewUser" e, ?_⟩⟩
      · simp [auth.RegisterNewUser, hbg]
      · simp [auth.RegisterNewUser, hbg]
    | ok passHash =>
      refine ⟨fun e' r' => ?_, ⟨GoErr.wrap "Auth.RegisterNewUser" GoErr.errInvalidRoleAuth, ?_⟩⟩
      · simp [auth.RegisterNewUser, hbg, h1, hv]
      · simp [auth.RegisterNewUser, hbg, h1, hv]
  · intro h4
    refine ⟨?_, ⟨GoErr.fmtMsg ("Auth.AssignRole: invalid role: " ++ role), ?_⟩⟩
    · simp [auth.UpdateRole, h2, h3, h4]
    · simp [auth.UpdateRole, h2, h3, h4]

/-- C6 witness: with role `superuser`, Register records no SaveUser call and
UpdateRole records no storage call. -/
theorem invalid_role_short_circuits_storage_witness :
    Event.saveUser "a@x.com" "superuser"
      ∉ (auth.RegisterNewUser hashOk saveOk "a@x.com" "pw" "superuser").1
  ∧ (auth.UpdateRole updOk 7 "superuser").1 = [] := by
  constructor
  · exact (invalid_role_short_circuits_storage hashOk saveOk updOk "a@x.com" "pw" "superuser" 7
      (by decide) (by decide) (by decide)).1.1 "a@x.com" "superuser"
  · exact ((invalid_role_short_circuits_storage hashOk saveOk updOk "a@x.com" "pw" "superuser" 7
      (by decide) (by decide) (by decide)).2 (by decide)).1

/-- C7 (token issuer modelled from the spec; `sso/internal/lib/jwt` is not under
src/): for every issued token, the expiry claim equals the issue time plus the
configured TTL exactly, and for a positive TTL the expiry is strictly greater than
the issue time. -/
theorem token_expiry_is_issue_time_plus_ttl (user : models.User) (app : models.App)
    (issueTime ttl : Nat) (h : 0 < ttl) :
    (jwt.NewToken user app issueTime ttl).exp - issueTime = ttl
  ∧ issueTime < (jwt.NewToken user app issueTime ttl).exp := by
  constructor
  · simp [jwt.NewToken]
  · simp only [jwt.NewToken]
    omega

/-- C7 witness: a token issued at time 1000 with a one-hour TTL (3600 seconds)
expires exactly at 4600. -/
theorem token_expiry_is_issue_time_plus_ttl_witness :
    (jwt.NewToken { ID := 1, Email := "a@x.com", PassHash := 5, Role := "user" }
        { ID := 1, Name := "app", Secret := "s" } 1000 3600).exp - 1000 = 3600
  ∧ 1000 < (jwt.NewToken { ID := 1, Email := "a@x.com", PassHash := 5, Role := "user" }
        { ID := 1, Name := "app", Secret := "s" } 1000 3600).exp :=
  token_expiry_is_issue_time_plus_ttl
    { ID := 1, Email := "a@x.com", PassHash := 5, Role := "user" }
    { ID := 1, Name := "app", Secret := "s" } 1000 3600 (by decide)

/-- C9: on an empty user set the storage layer returns a successful empty list, the
Auth service passes it through unchanged, and the transport response carries an empty
(present, non-error) user list. -/
theorem listUsers_empty_is_ok_empty :
    postgres.ListUsers ([] : List models.User) = Except.ok []
  ∧ auth.ListUsers (postgres.ListUsers ([] : List models.User)) = Except.ok []
  ∧ (serverAPI.ListUsers (auth.ListUsers (postgres.ListUsers ([] : List models.User)))).2
      = GrpcOut.ok ([] : List UserDTO) :=
  ⟨rfl, rfl, rfl⟩

/-- C8: the transport adapter rejects malformed input with `InvalidArgument` before
invoking the Auth service: for any service oracle, a Login request with an empty
email, an empty password, or app id 0, and a Register request with an empty email or
empty password, return `InvalidArgument` with an empty call trace (the service is
never invoked). -/
theorem transport_validates_before_service
    (authLogin : String → String → Int → Except GoErr String)
    (authRegister : String → String → String → Except GoErr Int)
    (email password role : String) (appId : Int) :
    (email = "" →
      serverAPI.Login authLogin email password appId
        = ([], GrpcOut.err Code.InvalidArgument "email is required"))
  ∧ (email ≠ "" → password = "" →
      serverAPI.Login authLogin email password appId
        = ([], GrpcOut.err Code.InvalidArgument "password is required"))
  ∧ (email ≠ "" → password ≠ "" → appId = 0 →
      serverAPI.Login authLogin email password appId
        = ([], GrpcOut.err Code.InvalidArgument "app_id is required"))
  ∧ (email = "" →
      serverAPI.Register authRegister email password role
        = ([], GrpcOut.err Code.InvalidArgument "email is required"))
  ∧ (email ≠ "" → password = "" →
      serverAPI.Register authRegister email password role
        = ([], GrpcOut.err Code.InvalidArgument "password is required"))
  ∧ ((email = "" ∨ password = "" ∨ appId = 0) →
      ∀ s, Event.callService s ∉ (serverAPI.Login authLogin email password appId).1) := by
  refine ⟨?_, ?_, ?_, ?_, ?_, ?_⟩
  · intro h
    simp [serverAPI.Login, h]
  · intro h1 h2
    simp [serverAPI.Login, h1, h2]
  · intro h1 h2 h3
    simp [serverAPI.Login, h1, h2, h3]
  · intro h
    simp [serverAPI.Register, h]
  · intro h1 h2
    simp [serverAPI.Register, h1, h2]
  · intro h s
    rcases h with h | h | h
    · simp [serverAPI.Login, h]
    · by_cases h1 : email = "" <;> simp [serverAPI.Login, h1, h]
    · by_cases h1 : email = "" <;> by_cases h2 : password = "" <;>
        simp [serverAPI.Login, h1, h2, h]

/-- C8 witness: concrete malformed requests are rejected with `InvalidArgument` and
an empty call trace. -/
theorem transport_validates_before_service_witness :
    serverAPI.Login (fun _ _ _ => Except.ok "t") "" "pw" 1
      = ([], GrpcOut.err Code.InvalidArgument "email is required")
  ∧ serverAPI.Login (fun _ _ _ => Except.ok "t") "a@x.com" "pw" 0
      = ([], GrpcOut.err Code.InvalidArgument "app_id is required")
  ∧ serverAPI.Register (fun _ _ _ => Except.ok 1) "a@x.com" "" "user"
      = ([], GrpcOut.err Code.InvalidArgument "password is required") := by
  refine ⟨?_, ?_, ?_⟩
  · exact (transport_validates_before_service (fun _ _ _ => Except.ok "t")
      (fun _ _ _ => Except.ok 1) "" "pw" "user" 1).1 rfl
  · exact (transport_validates_before_service (fun _ _ _ => Except.ok "t")
      (fun _ _ _ => Except.ok 1) "a@x.com" "pw" "user" 0).2.2.1
      (by decide) (by decide) rfl
  · exact (transport_validates_before_service (fun _ _ _ => Except.ok "t")
      (fun _ _ _ => Except.ok 1) "a@x.com" "" "user" 1).2.2.2.2.1 (by decide) rfl

/-- The Login service composed over an empty user store: the user lookup reports a
storage not-found, so the service returns the wrapped `auth.ErrUserNotFound`. -/
def loginSvcEmptyDB : String → String → Int → Except GoErr String :=
  fun email password appID =>
    auth.Login (postgres.User []) (fun _ _ => true) appOk tokenOk 3600 email password appID

/-- The Register service with always-succeeding bcrypt and storage oracles. -/
def registerSvcOk : String → String → String → Except GoErr Int :=
  fun email password role => (auth.RegisterNewUser hashOk saveOk email password role).2

/-- C1 counterexample: the mapping table is not applied uniformly. A Login whose
service error is classifiable as `UserNotFound` is answered with `Internal`, not
`NotFound`; a Register whose service error is classifiable as `InvalidRole` is
answered with `Internal`, not `InvalidArgument`. -/
theorem error_mapping_not_uniform_counterexample :
    loginSvcEmptyDB "a@x.com" "pw" 1
      = Except.error (GoErr.wrap "Auth.Login" GoErr.errUserNotFoundAuth)
  ∧ errorsIs (GoErr.wrap "Auth.Login" GoErr.errUserNotFoundAuth)
      GoErr.errUserNotFoundAuth = true
  ∧ (serverAPI.Login loginSvcEmptyDB "a@x.com" "pw" 1).2
      = GrpcOut.err Code.Internal "failed to login"
  ∧ (serverAPI.Login loginSvcEmptyDB "a@x.com" "pw" 1).2.code ≠ Code.NotFound
  ∧ registerSvcOk "a@x.com" "pw" "admin"
      = Except.error (GoErr.wrap "Auth.RegisterNewUser" GoErr.errInvalidRoleAuth)
  ∧ errorsIs (GoErr.wrap "Auth.RegisterNewUser" GoErr.errInvalidRoleAuth)
      GoErr.errInvalidRoleAuth = true
  ∧ (serverAPI.Register registerSvcOk "a@x.com" "pw" "admin").2
      = GrpcOut.err Code.Internal "failed to register"
  ∧ (serverAPI.Register registerSvcOk "a@x.com" "pw" "admin").2.code
      ≠ Code.InvalidArgument := by
  refine ⟨rfl, by decide, rfl, by decide, rfl, by decide, rfl, by decide⟩

/-- C1 amended: each handler maps only the error kinds it checks, and every other
service error — including `UserNotFound` from Login and `InvalidRole` from Register —
falls to `Internal` with a fixed message: Login maps `InvalidCredentials` to
`Unauthenticated`, Register maps `UserExists` to `AlreadyExists`, GetUserRole and
UpdateRole map `UserNotFound` to `NotFound`, ListUsers maps every error to
`Internal`; malformed input is rejected with `InvalidArgument` before the service is
invoked. -/
theorem per_handler_error_mapping
    (e : GoErr) (email password role : String) (appId userId : Int)
    (h1 : email ≠ "") (h2 : password ≠ "") (h3 : appId ≠ 0) :
    ((serverAPI.Login (fun _ _ _ => Except.error e) email password appId).2
        = if errorsIs e GoErr.errInvalidCredentialsAuth then
            GrpcOut.err Code.Unauthenticated "invalid email or password"
          else GrpcOut.err Code.Internal "failed to login")
  ∧ ((serverAPI.Register (fun _ _ _ => Except.error e) email password role).2
        = if errorsIs e GoErr.errUserExistsStorage then
            GrpcOut.err Code.AlreadyExists "user already exists"
          else GrpcOut.err Code.Internal "failed to register")
  ∧ ((serverAPI.GetUserRole (fun _ => Except.error e) userId).2
        = if errorsIs e GoErr.errUserNotFoundAuth then
            GrpcOut.err Code.NotFound "user not found"
          else GrpcOut.err Code.Internal "failed to get user")
  ∧ ((serverAPI.UpdateRole (fun _ _ => Except.error e) userId role).2
        = if errorsIs e GoErr.errUserNotFoundAuth then
            GrpcOut.err Code.NotFound "user not found"
          else GrpcOut.err Code.Internal "failed to update user")
  ∧ ((serverAPI.ListUsers (Except.error e)).2
        = GrpcOut.err Code.Internal "failed to list users") := by
  refine ⟨?_, ?_, ?_, ?_, rfl⟩
  · by_cases hb : errorsIs e GoErr.errInvalidCredentialsAuth <;>
      simp [serverAPI.Login, h1, h2, h3, hb]
  · by_cases hb : errorsIs e GoErr.errUserExistsStorage <;>
      simp [serverAPI.Register, h1, h2, hb]
  · by_cases hb : errorsIs e GoErr.errUserNotFoundAuth <;>
      simp [serverAPI.GetUserRole, hb]
  · by_cases hb : errorsIs e GoErr.errUserNotFoundAuth <;>
      simp [serverAPI.UpdateRole, hb]

/-- C1 amended witness: at a concrete wrapped `UserNotFound` error, Login answers
`Internal`, GetUserRole and UpdateRole answer `NotFound`. -/
theorem per_handler_error_mapping_witness :
    (serverAPI.Login (fun _ _ _ => Except.error (GoErr.wrap "Auth.Login" GoErr.errUserNotFoundAuth))
        "a@x.com" "pw" 1).2 = GrpcOut.err Code.Internal "failed to login"
  ∧ (serverAPI.GetUserRole (fun _ => Except.error (GoErr.wrap "Auth.GetRole" GoErr.errUserNotFoundAuth)) 7).2
      = GrpcOut.err Code.NotFound "user not found"
  ∧ (serverAPI.UpdateRole (fun _ _ => Except.error (GoErr.wrap "Auth.AssignRole" GoErr.errUserNotFoundAuth)) 7 "admin").2
      = GrpcOut.err Code.NotFound "user not found" := by
  have h := per_handler_error_mapping (GoErr.wrap "Auth.Login" GoErr.errUserNotFoundAuth)
    "a@x.com" "pw" "admin" 1 7 (by decide) (by decide) (by decide)
  have h2 := per_handler_error_mapping (GoErr.wrap "Auth.GetRole" GoErr.errUserNotFoundAuth)
    "a@x.com" "pw" "admin" 1 7 (by decide) (by decide) (by decide)
  have h3 := per_handler_error_mapping (GoErr.wrap "Auth.AssignRole" GoErr.errUserNotFoundAuth)
    "a@x.com" "pw" "admin" 1 7 (by decide) (by decide) (by decide)
  refine ⟨?_, ?_, ?_⟩
  · rw [h.1]; decide
  · rw [h2.2.2.1]; decide
  · rw [h3.2.2.2.1]; decide

/-- C3 counterexample: `UpdateRole` with the invalid role `superuser` returns a plain
formatted error that is not classifiable as `ErrInvalidRole` by `errors.Is`. -/
theorem updateRole_invalid_role_unclassifiable_counterexample :
    (auth.UpdateRole updOk 7 "superuser").2
      = Except.error (GoErr.fmtMsg "Auth.AssignRole: invalid role: superuser")
  ∧ errorsIs (GoErr.fmtMsg "Auth.AssignRole: invalid role: superuser")
      GoErr.errInvalidRoleAuth = false := by
  refine ⟨rfl, by decide⟩

/-- C3 amended: every typed error outcome wraps the operation name while remaining
classifiable by `errors.Is` — wrapping preserves classification in general, Register's
invalid-role error is classifiable as `ErrInvalidRole`, Login's wrong-password error
as `ErrInvalidCredentials`, and UpdateRole's storage not-found as `ErrUserNotFound`
— with the single exception of UpdateRole's invalid-role error, which is a plain
formatted message carrying no typed kind. -/
theorem service_errors_carry_typed_kind
    (opName : String) (e : GoErr) (role : String) (userID : Int)
    (userLookup : String → Except GoErr models.User)
    (bcryptCompare : Nat → String → Bool) (email password : String)
    (h1 : role ≠ "") (h2 : role ≠ "user") (h3 : role ≠ "organizer") :
    errorsIs (GoErr.wrap opName e) e = true
  ∧ (∃ err, (auth.RegisterNewUser hashOk saveOk email password role).2 = Except.error err
      ∧ errorsIs err GoErr.errInvalidRoleAuth = true)
  ∧ (∀ user, userLookup email = Except.ok user →
      bcryptCompare user.PassHash password = false →
      ∃ err, auth.Login userLookup bcryptCompare appOk tokenOk 3600 email password 1
          = Except.error err
        ∧ errorsIs err GoErr.errInvalidCredentialsAuth = true)
  ∧ (role = "admin" →
      ∃ err, (auth.UpdateRole
          (fun _ _ => Except.error (GoErr.wrap "storage.postgres.UpdateUserRole"
            GoErr.errUserNotFoundStorage)) userID role).2 = Except.error err
        ∧ errorsIs err GoErr.errUserNotFoundAuth = true)
  ∧ (role ≠ "admin" →
      (auth.UpdateRole updOk userID role).2
        = Except.error (GoErr.fmtMsg ("Auth.AssignRole: invalid role: " ++ role))) := by
  have hv : registerValidRoles role = false := by
    simp [registerValidRoles, h2, h3]
  refine ⟨errorsIs_wrap opName e e (errorsIs_self e), ?_, ?_, ?_, ?_⟩
  · refine ⟨GoErr.wrap "Auth.RegisterNewUser" GoErr.errInvalidRoleAuth, ?_, ?_⟩
    · simp [auth.RegisterNewUser, hashOk, h1, hv]
    · exact errorsIs_wrap _ _ _ (errorsIs_self _)
  · intro user hlook hcmp
    refine ⟨GoErr.wrap "Auth.Login" GoErr.errInvalidCredentialsAuth, ?_, ?_⟩
    · simp [auth.Login, hlook, hcmp]
    · exact errorsIs_wrap _ _ _ (errorsIs_self _)
  · intro h4
    subst h4
    refine ⟨GoErr.wrap "Auth.AssignRole" GoErr.errUserNotFoundAuth, ?_, ?_⟩
    · rfl
    · exact errorsIs_wrap _ _ _ (errorsIs_self _)
  · intro h4
    simp [auth.UpdateRole, h2, h3, h4]

/-- C3 amended witness: concrete classifiable errors from Register and a concrete
unclassifiable invalid-role error from UpdateRole. -/
theorem service_errors_carry_typed_kind_witness :
    errorsIs (GoErr.wrap "Auth.Login" GoErr.errUserNotFoundAuth)
      GoErr.errUserNotFoundAuth = true
  ∧ (auth.UpdateRole updOk 9 "moderator").2
      = Except.error (GoErr.fmtMsg "Auth.AssignRole: invalid role: moderator") := by
  have h := service_errors_carry_typed_kind "Auth.Login" GoErr.errUserNotFoundAuth
    "moderator" 9 (postgres.User []) (fun _ _ => true) "a@x.com" "pw"
    (by decide) (by decide) (by decide)
  exact ⟨h.1, h.2.2.2.2 (by decide)⟩

/-- C5 counterexample: registering with the invalid role `admin` computes the bcrypt
hash before the role check fails — the hash event is in the trace of the failed
operation, so the operation does not fail before the password hash is computed. -/
theorem register_hashes_before_role_check_counterexample :
    auth.RegisterNewUser hashOk saveOk "a@x.com" "pw" "admin"
      = ([Event.hashPassword "pw"],
         Except.error (GoErr.wrap "Auth.RegisterNewUser" GoErr.errInvalidRoleAuth))
  ∧ Event.hashPassword "pw" ∈ (auth.RegisterNewUser hashOk saveOk "a@x.com" "pw" "admin").1 := by
  refine ⟨rfl, by decide⟩

/-- C5 amended: Register executes its steps in the order hash password, then
normalize/validate the role, then SaveUser — so a registration with an invalid role
fails after the password hash is computed but before any storage call: the trace of
the failed operation is exactly the hash event. -/
theorem register_step_order
    (bcryptGenerate : String → Except GoErr Nat)
    (saveUser : String → Nat → String → Except GoErr Int)
    (email pass role : String) (passHash : Nat)
    (hbg : bcryptGenerate pass = Except.ok passHash) :
    (role = "" →
      (auth.RegisterNewUser bcryptGenerate saveUser email pass role).1
        = [Event.hashPassword pass, Event.saveUser email "user"])
  ∧ ((role = "user" ∨ role = "organizer") →
      (auth.RegisterNewUser bcryptGenerate saveUser email pass role).1
        = [Event.hashPassword pass, Event.saveUser email role])
  ∧ (role ≠ "" → role ≠ "user" → role ≠ "organizer" →
      auth.RegisterNewUser bcryptGenerate saveUser email pass role
        = ([Event.hashPassword pass],
           Except.error (GoErr.wrap "Auth.RegisterNewUser" GoErr.errInvalidRoleAuth))) := by
  refine ⟨?_, ?_, ?_⟩
  · intro h
    subst h
    simp only [auth.RegisterNewUser, hbg, registerSave]
    cases saveUser email passHash "user" <;> rfl
  · intro h
    have hne : role ≠ "" := by
      rcases h with h | h <;> subst h <;> decide
    have hv : registerValidRoles role = true := (registerValidRoles_true_iff role).mpr h
    simp only [auth.RegisterNewUser, hbg, registerSave]
    rw [if_neg hne, if_neg (by simp [hv])]
    cases saveUser email passHash role <;> rfl
  · intro h1 h2 h3
    have hv : registerValidRoles role = false := by
      simp [registerValidRoles, h2, h3]
    simp [auth.RegisterNewUser, hbg, h1, hv]

/-- C5 amended witness: with role `superuser` the failed registration's trace is
exactly the hash event; with role `user` the trace is hash then save, in that
order. -/
theorem register_step_order_witness :
    auth.RegisterNewUser hashOk saveOk "a@x.com" "pw" "superuser"
      = ([Event.hashPassword "pw"],
         Except.error (GoErr.wrap "Auth.RegisterNewUser" GoErr.errInvalidRoleAuth))
  ∧ (auth.RegisterNewUser hashOk saveOk "a@x.com" "pw" "user").1
      = [Event.hashPassword "pw", Event.saveUser "a@x.com" "user"] := by
  have h := register_step_order hashOk saveOk "a@x.com" "pw" "superuser" 0 rfl
  have h2 := register_step_order hashOk saveOk "a@x.com" "pw" "user" 0 rfl
  exact ⟨h.2.2 (by decide) (by decide) (by decide), h2.2.1 (Or.inl rfl)⟩

/-- The trace of the shared save step of RegisterNewUser is always the hash event
followed by the save event, whatever the storage oracle answers. -/
theorem registerSave_trace (op : String) (su : String → Nat → String → Except GoErr Int)
    (email : String) (ph : Nat) (pass role : String) :
    (registerSave op su email ph pass role).1
      = [Event.hashPassword pass, Event.saveUser email role] := by
  unfold registerSave
  cases su email ph role <;> rfl

/-- C10: every code path that writes a role to storage writes a value in the closed
set: the postgres UpdateRole re-validates the role against the closed set and, on an
invalid role, errors without executing the UPDATE (rows unchanged); a valid-role
UPDATE preserves the all-roles-valid invariant of the rows even when the service
layer is bypassed; and the service register path only ever issues SaveUser calls
whose role is `user` or `organizer`. -/
theorem role_writes_stay_in_closed_set
    (db : List models.User) (userID : Int) (role : String)
    (bcryptGenerate : String → Except GoErr Nat)
    (saveUser : String → Nat → String → Except GoErr Int)
    (email pass reqRole e r : String) :
    (postgresValidRoles role = false →
      postgres.UpdateRole db userID role
        = (Except.error (GoErr.fmtMsg ("storage.postgres.UpdateUserRole: invalid role: " ++ role)), db))
  ∧ ((∀ u ∈ db, u.Role = "user" ∨ u.Role = "organizer" ∨ u.Role = "admin") →
      ∀ u ∈ (postgres.UpdateRole db userID role).2,
        u.Role = "user" ∨ u.Role = "organizer" ∨ u.Role = "admin")
  ∧ (Event.saveUser e r ∈ (auth.RegisterNewUser bcryptGenerate saveUser email pass reqRole).1 →
      r = "user" ∨ r = "organizer") := by
  refine ⟨?_, ?_, ?_⟩
  · intro h
    simp [postgres.UpdateRole, h]
  · intro hInv u hu
    cases hvr : postgresValidRoles role with
    | false =>
      simp only [postgres.UpdateRole] at hu
      rw [if_pos (by simp [hvr])] at hu
      exact hInv u hu
    | true =>
      simp only [postgres.UpdateRole] at hu
      rw [if_neg (by simp [hvr])] at hu
      have hmap : u ∈ db.map (fun v => if v.ID = userID then { v with Role := role } else v) := by
        split at hu
        · exact hu
        · exact hu
      rcases List.mem_map.mp hmap with ⟨v, hv, hfv⟩
      by_cases hid : v.ID = userID
      · rw [if_pos hid] at hfv
        rw [← hfv]
        rcases (postgresValidRoles_true_iff role).mp hvr with h | h | h
        · exact Or.inr (Or.inr h)
        · exact Or.inl h
        · exact Or.inr (Or.inl h)
      · rw [if_neg hid] at hfv
        rw [← hfv]
        exact hInv v hv
  · intro hmem
    cases hbg : bcryptGenerate pass with
    | error err => simp [auth.RegisterNewUser, hbg] at hmem
    | ok ph =>
      by_cases h0 : reqRole = ""
      · simp only [auth.RegisterNewUser, hbg, if_pos h0, registerSave_trace] at hmem
        simp at hmem
        exact Or.inl hmem.2
      · cases hvb : registerValidRoles reqRole with
        | true =>
          simp only [auth.RegisterNewUser, hbg] at hmem
          rw [if_neg h0, if_neg (by simp [hvb]), registerSave_trace] at hmem
          simp at hmem
          rw [hmem.2]
          exact (registerValidRoles_true_iff reqRole).mp hvb
        | false =>
          simp only [auth.RegisterNewUser, hbg] at hmem
          rw [if_neg h0, if_pos (by simp [hvb])] at hmem
          simp at hmem

/-- C10 witness: the postgres UpdateRole rejects role `superuser` leaving a concrete
row set unchanged; the invariant holds on the updated rows after a bypassing call
with role `admin`; and a register save event's role lies in the register set. -/
theorem role_writes_stay_in_closed_set_witness :
    postgres.UpdateRole [{ ID := 1, Email := "a@x.com", PassHash := 5, Role := "user" }] 1 "superuser"
      = (Except.error (GoErr.fmtMsg "storage.postgres.UpdateUserRole: invalid role: superuser"),
         [{ ID := 1, Email := "a@x.com", PassHash := 5, Role := "user" }])
  ∧ (∀ u ∈ (postgres.UpdateRole [{ ID := 1, Email := "a@x.com", PassHash := 5, Role := "user" }] 1 "admin").2,
      u.Role = "user" ∨ u.Role = "organizer" ∨ u.Role = "admin")
  ∧ ("user" = "user" ∨ ("user" : String) = "organizer") := by
  have h := role_writes_stay_in_closed_set
    [{ ID := 1, Email := "a@x.com", PassHash := 5, Role := "user" }] 1 "superuser"
    hashOk saveOk "a@x.com" "pw" "" "a@x.com" "user"
  have h2 := role_writes_stay_in_closed_set
    [{ ID := 1, Email := "a@x.com", PassHash := 5, Role := "user" }] 1 "admin"
    hashOk saveOk "a@x.com" "pw" "" "a@x.com" "user"
  refine ⟨h.1 (by decide), h2.2.1 ?_, h.2.2 (by decide)⟩
  intro u hu
  simp at hu
  rw [hu]
  exact Or.inl rfl
